import Mathlib

/-!
Shallow embedding of the GF1 device driver (gf1device.cpp, version 1.0.0).

The driver translates physical-unit requests (frequency in kHz, amplitude in
Vpp, waveform shape) into SPI register writes and GPIO toggles issued through
a CP2130 USB-to-SPI bridge.  Every public operation is modelled as a function
producing the sequence of bridge-level events it performs (chip-select
changes, SPI writes, GPIO drives, settling delays) together with the error
accumulator it returns.  Float arithmetic from the source is embedded exactly
over the rationals; the truncating float-to-unsigned casts become integer
floors.
-/

namespace GF1

/-- Address of the endpoint assuming the OUT direction (`EPOUT` in the source). -/
def EPOUT : Nat := 0x01

/-- Mask for the Fstart LSBs register (`FSTARTLSB` in the source). -/
def FSTARTLSB : Nat := 0xc0

/-- Mask for the Fstart MSBs register (`FSTARTMSB` in the source). -/
def FSTARTMSB : Nat := 0xd0

/-- Quantum related to the 8-bit resolution of the AD5160 SPI potentiometer
(`AQUANTUM` in the source). -/
def AQUANTUM : ℚ := 255

/-- Quantum related to the 24-bit frequency resolution of the AD5932 waveform
generator (`FQUANTUM` in the source). -/
def FQUANTUM : ℚ := 16777216

/-- 50 MHz clock reference, expressed in kHz (`MCLK` in the source). -/
def MCLK : ℚ := 50000

/-- Modelled from the spec: `AMPLITUDE_MIN` is declared in gf1device.h, which
is not part of the sources; the spec (§6) and the error message in
`setAmplitude` give the lower bound 0. -/
def AMPLITUDE_MIN : ℚ := 0

/-- Modelled from the spec: `AMPLITUDE_MAX` is declared in gf1device.h, which
is not part of the sources; the spec (§6) and the error message in
`setAmplitude` give the upper bound 5. -/
def AMPLITUDE_MAX : ℚ := 5

/-- Modelled from the spec: `FREQUENCY_MIN` is declared in gf1device.h, which
is not part of the sources; the spec (§6) and the error message in
`setFrequency` give the lower bound 0. -/
def FREQUENCY_MIN : ℚ := 0

/-- Modelled from the spec: `FREQUENCY_MAX` is declared in gf1device.h, which
is not part of the sources; the spec (§6) and the error message in
`setFrequency` give the upper bound 25000. -/
def FREQUENCY_MAX : ℚ := 25000

/-- A bridge-level action performed by the driver: the CP2130 calls
(`selectCS`, `disableCS`, `spiWrite`, `setGPIO2`, `setGPIO3`) and the
settling delay (`usleep`). -/
inductive Event where
  | selectCS : Nat → Event
  | disableCS : Nat → Event
  | spiWrite : List Nat → Nat → Event
  | setGPIO2 : Bool → Event
  | setGPIO3 : Bool → Event
  | usleep : Nat → Event
  deriving DecidableEq, Repr

/-- The observable device-side state driven by the events: the two GPIO
control lines (GPIO.2 = CTRL, GPIO.3 = INTERRUPT) and the two chip-select
lines. -/
structure DevState where
  gpio2 : Bool
  gpio3 : Bool
  cs0 : Bool
  cs1 : Bool
  deriving DecidableEq, Repr

/-- Effect of one event on the device state.  `selectCS` enables the given
channel and disables any others (exclusive select, as the CP2130 does);
`disableCS` disables just the given channel; GPIO writes set the line. -/
def step (s : DevState) : Event → DevState
  | .selectCS 0 => { s with cs0 := true, cs1 := false }
  | .selectCS 1 => { s with cs0 := false, cs1 := true }
  | .selectCS _ => s
  | .disableCS 0 => { s with cs0 := false }
  | .disableCS 1 => { s with cs1 := false }
  | .disableCS _ => s
  | .setGPIO2 b => { s with gpio2 := b }
  | .setGPIO3 b => { s with gpio3 := b }
  | .spiWrite _ _ => s
  | .usleep _ => s

/-- Run a list of events from a device state. -/
def run (s : DevState) (es : List Event) : DevState := es.foldl step s

/-- `clearCtrlInterrupt`: set GPIO.2 (CTRL) low, then GPIO.3 (INTERRUPT)
low. -/
def clearCtrlInterrupt : List Event := [.setGPIO2 false, .setGPIO3 false]

/-- `toggleCtrl`: set GPIO.2 high, then low. -/
def toggleCtrl : List Event := [.setGPIO2 true, .setGPIO2 false]

/-- `toggleInterrupt`: set GPIO.3 high, then low. -/
def toggleInterrupt : List Event := [.setGPIO3 true, .setGPIO3 false]

/-- The amplitude code computed in `setAmplitude`:
`static_cast<uint8_t>(amplitude * AQUANTUM / AMPLITUDE_MAX + 0.5)`, the
float arithmetic taken exactly and the truncating cast as the floor (the
value is in range for valid amplitudes, so no wraparound occurs). -/
def amplitudeCode (amplitude : ℚ) : ℤ :=
  ⌊amplitude * AQUANTUM / AMPLITUDE_MAX + 1/2⌋

/-- The frequency code computed in `setFrequency`:
`static_cast<uint32_t>(frequency * FQUANTUM / MCLK + 0.5)`, the float
arithmetic taken exactly and the truncating cast as the floor (the value is
in range for valid frequencies, so no wraparound occurs). -/
def frequencyCode (frequency : ℚ) : ℤ :=
  ⌊frequency * FQUANTUM / MCLK + 1/2⌋

/-- The byte sequence assembled in `setFrequency` (local vector
`setFrequency`): zero frequency increments, delta frequency zero, increment
interval zero, then the Fstart LSBs register pair and the Fstart MSBs
register pair. -/
def setFrequencyFrame (frequency : ℚ) : List Nat :=
  let c : Nat := (frequencyCode frequency).toNat
  [0x10, 0x00,
   0x20, 0x00, 0x30, 0x00,
   0x40, 0x00,
   FSTARTLSB ||| (0x0f &&& c >>> 8),
   c % 256,
   FSTARTMSB ||| (0x0f &&& c >>> 20),
   (c >>> 12) % 256]

/-- Result of an operation that threads the error accumulator: the updated
counter, the updated message log, and the bridge events performed. -/
structure OpOut where
  errcnt : ℤ
  errstr : String
  events : List Event
  deriving DecidableEq, Repr

/-- `GF1Device::setAmplitude`: rejects an out-of-range amplitude
(incrementing the error counter and appending a message, performing no
device I/O); otherwise selects channel 1, writes the one-byte amplitude
frame, waits 100 us and deselects channel 1. -/
def setAmplitude (amplitude : ℚ) (errcnt : ℤ) (errstr : String) : OpOut :=
  if amplitude < AMPLITUDE_MIN ∨ AMPLITUDE_MAX < amplitude then
    ⟨errcnt + 1, errstr ++ "In setAmplitude(): Amplitude must be between 0 and 5.\n", []⟩
  else
    ⟨errcnt, errstr,
     [.selectCS 1,
      .spiWrite [(amplitudeCode amplitude).toNat] EPOUT,
      .usleep 100,
      .disableCS 1]⟩

/-- `GF1Device::setFrequency`: rejects an out-of-range frequency
(incrementing the error counter and appending a message, performing no
device I/O); otherwise clears CTRL and INTERRUPT, toggles INTERRUPT, selects
channel 0, writes the frequency frame, waits 100 us, deselects channel 0 and
toggles CTRL. -/
def setFrequency (frequency : ℚ) (errcnt : ℤ) (errstr : String) : OpOut :=
  if frequency < FREQUENCY_MIN ∨ FREQUENCY_MAX < frequency then
    ⟨errcnt + 1, errstr ++ "In setFrequency(): Frequency must be between 0 and 25000.\n", []⟩
  else
    ⟨errcnt, errstr,
     clearCtrlInterrupt ++ toggleInterrupt ++
     [.selectCS 0,
      .spiWrite (setFrequencyFrame frequency) EPOUT,
      .usleep 100,
      .disableCS 0] ++
     toggleCtrl⟩

/-- `GF1Device::clear`: clears CTRL and INTERRUPT, selects channel 0, writes
the 14-byte clear frame (sinusoidal waveform plus all frequency registers
zeroed), waits, selects channel 1 (which also deselects channel 0), writes
the one-byte zero amplitude, waits and deselects channel 1. -/
def clear : List Event :=
  clearCtrlInterrupt ++
  [.selectCS 0,
   .spiWrite [0x0f, 0xdf,
              0x10, 0x00,
              0x20, 0x00, 0x30, 0x00,
              0x40, 0x00,
              0xc0, 0x00, 0xc0, 0x00] EPOUT,
   .usleep 100,
   .selectCS 1,
   .spiWrite [0x00] EPOUT,
   .usleep 100,
   .disableCS 1]

/-- `GF1Device::setSineWave`: clears CTRL and INTERRUPT, selects channel 0,
writes the two-byte sinusoidal control frame, waits, deselects channel 0 and
toggles CTRL. -/
def setSineWave : List Event :=
  clearCtrlInterrupt ++
  [.selectCS 0,
   .spiWrite [0x0f, 0xdf] EPOUT,
   .usleep 100,
   .disableCS 0] ++
  toggleCtrl

/-- `GF1Device::setTriangleWave`: clears CTRL and INTERRUPT, selects channel
0, writes the two-byte triangular control frame, waits, deselects channel 0
and toggles CTRL. -/
def setTriangleWave : List Event :=
  clearCtrlInterrupt ++
  [.selectCS 0,
   .spiWrite [0x0d, 0xdf] EPOUT,
   .usleep 100,
   .disableCS 0] ++
  toggleCtrl

/-- `GF1Device::start`: clears CTRL and INTERRUPT, then toggles CTRL. -/
def start : List Event := clearCtrlInterrupt ++ toggleCtrl

/-- `GF1Device::stop`: clears CTRL and INTERRUPT, then toggles INTERRUPT. -/
def stop : List Event := clearCtrlInterrupt ++ toggleInterrupt

/-- Embedding of `std::round` on the rationals: round half away from
zero. -/
def cround (x : ℚ) : ℤ := if x < 0 then -⌊-x + 1/2⌋ else ⌊x + 1/2⌋

/-- `GF1Device::expectedAmplitude`: the amplitude actually produced after
quantization,
`std::round(amplitude * AQUANTUM / AMPLITUDE_MAX) * AMPLITUDE_MAX / AQUANTUM`. -/
def expectedAmplitude (amplitude : ℚ) : ℚ :=
  (cround (amplitude * AQUANTUM / AMPLITUDE_MAX) : ℚ) * AMPLITUDE_MAX / AQUANTUM

/-- `GF1Device::expectedFrequency`: the frequency actually produced after
quantization,
`std::round(frequency * FQUANTUM / MCLK) * MCLK / FQUANTUM`. -/
def expectedFrequency (frequency : ℚ) : ℚ :=
  (cround (frequency * FQUANTUM / MCLK) : ℚ) * MCLK / FQUANTUM

/-- The `majrel`/`minrel` fields of `CP2130::USBConfig` (both 8-bit release
numbers on the device). -/
structure USBConfig where
  majrel : Nat
  minrel : Nat
  deriving DecidableEq, Repr

/-- `GF1Device::hardwareRevision`: appends the major revision letter
(`majrel + 'A' - 2`) when `1 < majrel ≤ 27`, then appends the decimal minor
revision number when `majrel = 1` or `minrel ≠ 0`. -/
def hardwareRevision (config : USBConfig) : String :=
  (if 1 < config.majrel ∧ config.majrel ≤ 27 then
    String.singleton (Char.ofNat (config.majrel + 65 - 2))
   else "") ++
  (if config.majrel = 1 ∨ config.minrel ≠ 0 then toString config.minrel else "")

/-- Does this event disable chip-select channel `ch`?  `disableCS ch` does
so directly; `selectCS` of a different channel does so because the CP2130
select is exclusive. -/
def deselects (ch : Nat) : Event → Bool
  | .disableCS c => c = ch
  | .selectCS c => c ≠ ch
  | _ => false

/-- Every chip-select selection in the event list is followed by exactly one
deselection of that same channel. -/
def selectionsPaired : List Event → Bool
  | [] => true
  | .selectCS ch :: rest => (rest.countP (deselects ch) == 1) && selectionsPaired rest
  | _ :: rest => selectionsPaired rest

/-- Every `disableCS` in the event list comes immediately after a 100 us
settling delay. -/
def disableAfterDelay : List Event → Bool
  | .usleep 100 :: .disableCS _ :: rest => disableAfterDelay rest
  | .disableCS _ :: _ => false
  | _ :: rest => disableAfterDelay rest
  | [] => true

/-- The value carried by the last GPIO.2 write in the event list, if any. -/
def lastGpio2 (es : List Event) : Option Bool :=
  es.foldl (fun acc e => match e with | .setGPIO2 b => some b | _ => acc) none

/-- The value carried by the last GPIO.3 write in the event list, if any. -/
def lastGpio3 (es : List Event) : Option Bool :=
  es.foldl (fun acc e => match e with | .setGPIO3 b => some b | _ => acc) none

/-- The events performed by `setAmplitude` on a valid amplitude. -/
lemma setAmplitude_events_of_valid (v : ℚ) (e : ℤ) (s : String)
    (h0 : 0 ≤ v) (h1 : v ≤ 5) :
    setAmplitude v e s =
      ⟨e, s,
       [.selectCS 1,
        .spiWrite [(amplitudeCode v).toNat] EPOUT,
        .usleep 100,
        .disableCS 1]⟩ := by
  rw [setAmplitude, if_neg]
  push_neg
  exact ⟨by rw [AMPLITUDE_MIN]; exact h0, by rw [AMPLITUDE_MAX]; exact h1⟩

/-- The events performed by `setFrequency` on a valid frequency. -/
lemma setFrequency_events_of_valid (f : ℚ) (e : ℤ) (s : String)
    (h0 : 0 ≤ f) (h1 : f ≤ 25000) :
    setFrequency f e s =
      ⟨e, s,
       clearCtrlInterrupt ++ toggleInterrupt ++
       [.selectCS 0,
        .spiWrite (setFrequencyFrame f) EPOUT,
        .usleep 100,
        .disableCS 0] ++
       toggleCtrl⟩ := by
  rw [setFrequency, if_neg]
  push_neg
  exact ⟨by rw [FREQUENCY_MIN]; exact h0, by rw [FREQUENCY_MAX]; exact h1⟩

/-- The amplitude code is nonnegative for a nonnegative amplitude. -/
lemma amplitudeCode_nonneg (v : ℚ) (h0 : 0 ≤ v) : 0 ≤ amplitudeCode v := by
  rw [amplitudeCode, AQUANTUM, AMPLITUDE_MAX]
  apply Int.le_floor.mpr
  push_cast
  linarith

/-- The amplitude code fits in a byte for an amplitude of at most 5 Vpp. -/
lemma amplitudeCode_le (v : ℚ) (h1 : v ≤ 5) : amplitudeCode v ≤ 255 := by
  rw [amplitudeCode, AQUANTUM, AMPLITUDE_MAX]
  have h : ⌊v * 255 / 5 + 1/2⌋ < 256 := Int.floor_lt.mpr (by push_cast; linarith)
  omega

/-- The frequency code is nonnegative for a nonnegative frequency. -/
lemma frequencyCode_nonneg (f : ℚ) (h0 : 0 ≤ f) : 0 ≤ frequencyCode f := by
  rw [frequencyCode, FQUANTUM, MCLK]
  apply Int.le_floor.mpr
  push_cast
  linarith

/-- The frequency code fits in 24 bits for a frequency of at most 25000
kHz. -/
lemma frequencyCode_lt (f : ℚ) (h1 : f ≤ 25000) : frequencyCode f < 2 ^ 24 := by
  rw [frequencyCode, FQUANTUM, MCLK]
  have h : ⌊f * 16777216 / 50000 + 1/2⌋ < 16777216 := Int.floor_lt.mpr (by push_cast; linarith)
  omega

/-- Masking with `0x0f` extracts the low 4 bits. -/
lemma and15 (c : Nat) : 0x0f &&& c = c % 16 := by
  rw [Nat.and_comm, show (0x0f : Nat) = 2 ^ 4 - 1 from rfl,
    Nat.and_pow_two_sub_one_eq_mod, show (2 ^ 4 : Nat) = 16 from rfl]

/-- The frequency frame in the claim-side layout: the 24-bit code's low 12
bits split as `[0xC0 OR bits 11:8, bits 7:0]` and its high 12 bits split as
`[0xD0 OR bits 23:20, bits 19:12]`. -/
lemma setFrequencyFrame_packing (f : ℚ) (h1 : f ≤ 25000) :
    setFrequencyFrame f =
      [0x10, 0x00, 0x20, 0x00, 0x30, 0x00, 0x40, 0x00,
       0xc0 ||| (frequencyCode f).toNat % 2 ^ 12 / 2 ^ 8,
       (frequencyCode f).toNat % 2 ^ 12 % 2 ^ 8,
       0xd0 ||| (frequencyCode f).toNat / 2 ^ 12 / 2 ^ 8,
       (frequencyCode f).toNat / 2 ^ 12 % 2 ^ 8] := by
  have hc : (frequencyCode f).toNat < 16777216 := by
    have h := frequencyCode_lt f h1
    omega
  simp only [setFrequencyFrame, FSTARTLSB, FSTARTMSB, and15,
    Nat.shiftRight_eq_div_pow, List.cons.injEq, true_and, and_true]
  refine ⟨?_, ?_, ?_, ?_⟩
  · exact congrArg (0xc0 ||| ·) (by omega)
  · omega
  · exact congrArg (0xd0 ||| ·) (by omega)
  · omega

/-- The frequency code at exactly 25000 kHz is 0x800000. -/
lemma frequencyCode_25000 : frequencyCode 25000 = 8388608 := by
  rw [frequencyCode, FQUANTUM, MCLK]
  norm_num

/-- The frequency frame at exactly 25000 kHz. -/
lemma setFrequencyFrame_25000 :
    setFrequencyFrame 25000 =
      [0x10, 0x00, 0x20, 0x00, 0x30, 0x00, 0x40, 0x00, 0xc0, 0x00, 0xd8, 0x00] := by
  simp only [setFrequencyFrame, frequencyCode_25000]
  rfl

/-- Rounding to `⌊x + 1/2⌋` stays within one half of the argument. -/
lemma abs_floor_half_sub_le (x : ℚ) : |((⌊x + 1/2⌋ : ℤ) : ℚ) - x| ≤ 1/2 := by
  have h1 := Int.floor_le (x + 1/2)
  have h2 := Int.lt_floor_add_one (x + 1/2)
  rw [abs_le]
  constructor <;> push_cast at h1 h2 ⊢ <;> linarith

/-- `cround` stays within one half of the argument. -/
lemma abs_cround_sub_le (x : ℚ) : |((cround x : ℤ) : ℚ) - x| ≤ 1/2 := by
  rw [cround]
  split
  · have h := abs_floor_half_sub_le (-x)
    have hneg : ((-⌊-x + 1/2⌋ : ℤ) : ℚ) - x = -(((⌊-x + 1/2⌋ : ℤ) : ℚ) - (-x)) := by
      push_cast
      ring
    rw [hneg, abs_neg]
    exact h
  · exact abs_floor_half_sub_le x

end GF1

namespace GF1

/-- Claim C9: when the major release value is 1, `hardwareRevision` appends
the minor number even when it is zero: `hardwareRevision {majrel := 1,
minrel := 0}` is `"0"`, not the empty string. -/
theorem C9_majrel_one_minor_always : hardwareRevision ⟨1, 0⟩ = "0" := by
  decide

/-- Claim C7: `start` first resets both control lines (drives GPIO.2/CTRL
and GPIO.3/INTERRUPT low) and then pulses CTRL high-then-low; `stop` first
resets both control lines and then pulses INTERRUPT high-then-low;
consequently `start` followed immediately by `stop` leaves both control
lines at logical low, from any prior device state. -/
theorem C7_start_stop_control_lines :
    start = [.setGPIO2 false, .setGPIO3 false, .setGPIO2 true, .setGPIO2 false] ∧
    stop = [.setGPIO2 false, .setGPIO3 false, .setGPIO3 true, .setGPIO3 false] ∧
    ∀ d : DevState,
      (run d (start ++ stop)).gpio2 = false ∧ (run d (start ++ stop)).gpio3 = false :=
  ⟨rfl, rfl, fun _ => ⟨rfl, rfl⟩⟩

/-- Claim C8: in every operation, every chip-select selection is followed,
within that same operation, by exactly one deselection of that same channel
(counting the exclusive `selectCS` of the other channel as a deselection);
every explicit deselection comes right after the 100 us settling delay; and
no operation leaves the chip-select lines enabled after returning (starting
from a state with both lines disabled). -/
theorem C8_chip_select_pairing (v f : ℚ) (e : ℤ) (s : String) (d : DevState)
    (h0 : d.cs0 = false) (h1 : d.cs1 = false) :
    (selectionsPaired (setAmplitude v e s).events = true ∧
     disableAfterDelay (setAmplitude v e s).events = true ∧
     (run d (setAmplitude v e s).events).cs0 = false ∧
     (run d (setAmplitude v e s).events).cs1 = false) ∧
    (selectionsPaired (setFrequency f e s).events = true ∧
     disableAfterDelay (setFrequency f e s).events = true ∧
     (run d (setFrequency f e s).events).cs0 = false ∧
     (run d (setFrequency f e s).events).cs1 = false) ∧
    (selectionsPaired clear = true ∧ disableAfterDelay clear = true ∧
     (run d clear).cs0 = false ∧ (run d clear).cs1 = false) ∧
    (selectionsPaired setSineWave = true ∧ disableAfterDelay setSineWave = true ∧
     (run d setSineWave).cs0 = false ∧ (run d setSineWave).cs1 = false) ∧
    (selectionsPaired setTriangleWave = true ∧ disableAfterDelay setTriangleWave = true ∧
     (run d setTriangleWave).cs0 = false ∧ (run d setTriangleWave).cs1 = false) ∧
    (selectionsPaired start = true ∧ disableAfterDelay start = true ∧
     (run d start).cs0 = false ∧ (run d start).cs1 = false) ∧
    (selectionsPaired stop = true ∧ disableAfterDelay stop = true ∧
     (run d stop).cs0 = false ∧ (run d stop).cs1 = false) := by
  have hamp : selectionsPaired (setAmplitude v e s).events = true ∧
      disableAfterDelay (setAmplitude v e s).events = true ∧
      (run d (setAmplitude v e s).events).cs0 = false ∧
      (run d (setAmplitude v e s).events).cs1 = false := by
    by_cases hv : v < AMPLITUDE_MIN ∨ AMPLITUDE_MAX < v
    · rw [setAmplitude, if_pos hv]
      exact ⟨rfl, rfl, h0, h1⟩
    · rw [setAmplitude, if_neg hv]
      exact ⟨rfl, rfl, rfl, rfl⟩
  have hfrq : selectionsPaired (setFrequency f e s).events = true ∧
      disableAfterDelay (setFrequency f e s).events = true ∧
      (run d (setFrequency f e s).events).cs0 = false ∧
      (run d (setFrequency f e s).events).cs1 = false := by
    by_cases hf : f < FREQUENCY_MIN ∨ FREQUENCY_MAX < f
    · rw [setFrequency, if_pos hf]
      exact ⟨rfl, rfl, h0, h1⟩
    · rw [setFrequency, if_neg hf]
      exact ⟨rfl, rfl, rfl, rfl⟩
  exact ⟨hamp, hfrq, ⟨rfl, rfl, rfl, rfl⟩, ⟨rfl, rfl, rfl, rfl⟩,
    ⟨rfl, rfl, rfl, rfl⟩, ⟨rfl, rfl, h0, h1⟩, ⟨rfl, rfl, h0, h1⟩⟩

/-- Claim C10: every public operation that drives the CTRL (GPIO.2) or
INTERRUPT (GPIO.3) control lines — `setFrequency` (on a valid frequency),
`setSineWave`, `setTriangleWave`, `clear`, `start` and `stop` — issues, as
its last write to each of those lines, a drive to logical low, so both
control lines are commanded low whenever any of those operations
returns, from any prior device state. -/
theorem C10_last_gpio_writes_low (f : ℚ) (e : ℤ) (s : String)
    (h0 : 0 ≤ f) (h1 : f ≤ 25000) :
    (lastGpio2 (setFrequency f e s).events = some false ∧
     lastGpio3 (setFrequency f e s).events = some false ∧
     ∀ d : DevState, (run d (setFrequency f e s).events).gpio2 = false ∧
       (run d (setFrequency f e s).events).gpio3 = false) ∧
    (lastGpio2 setSineWave = some false ∧ lastGpio3 setSineWave = some false ∧
     ∀ d : DevState, (run d setSineWave).gpio2 = false ∧ (run d setSineWave).gpio3 = false) ∧
    (lastGpio2 setTriangleWave = some false ∧ lastGpio3 setTriangleWave = some false ∧
     ∀ d : DevState, (run d setTriangleWave).gpio2 = false ∧
       (run d setTriangleWave).gpio3 = false) ∧
    (lastGpio2 clear = some false ∧ lastGpio3 clear = some false ∧
     ∀ d : DevState, (run d clear).gpio2 = false ∧ (run d clear).gpio3 = false) ∧
    (lastGpio2 start = some false ∧ lastGpio3 start = some false ∧
     ∀ d : DevState, (run d start).gpio2 = false ∧ (run d start).gpio3 = false) ∧
    (lastGpio2 stop = some false ∧ lastGpio3 stop = some false ∧
     ∀ d : DevState, (run d stop).gpio2 = false ∧ (run d stop).gpio3 = false) := by
  rw [setFrequency_events_of_valid f e s h0 h1]
  exact ⟨⟨rfl, rfl, fun _ => ⟨rfl, rfl⟩⟩, ⟨rfl, rfl, fun _ => ⟨rfl, rfl⟩⟩,
    ⟨rfl, rfl, fun _ => ⟨rfl, rfl⟩⟩, ⟨rfl, rfl, fun _ => ⟨rfl, rfl⟩⟩,
    ⟨rfl, rfl, fun _ => ⟨rfl, rfl⟩⟩, ⟨rfl, rfl, fun _ => ⟨rfl, rfl⟩⟩⟩

/-- Witness for C8 at amplitude 2 Vpp, frequency 3 kHz and the all-low
device state. -/
theorem C8_chip_select_pairing_witness :
    (⟨false, false, false, false⟩ : DevState).cs0 = false ∧
    (⟨false, false, false, false⟩ : DevState).cs1 = false ∧
    ((selectionsPaired (setAmplitude 2 0 "").events = true ∧
      disableAfterDelay (setAmplitude 2 0 "").events = true ∧
      (run ⟨false, false, false, false⟩ (setAmplitude 2 0 "").events).cs0 = false ∧
      (run ⟨false, false, false, false⟩ (setAmplitude 2 0 "").events).cs1 = false) ∧
     (selectionsPaired (setFrequency 3 0 "").events = true ∧
      disableAfterDelay (setFrequency 3 0 "").events = true ∧
      (run ⟨false, false, false, false⟩ (setFrequency 3 0 "").events).cs0 = false ∧
      (run ⟨false, false, false, false⟩ (setFrequency 3 0 "").events).cs1 = false) ∧
     (selectionsPaired clear = true ∧ disableAfterDelay clear = true ∧
      (run ⟨false, false, false, false⟩ clear).cs0 = false ∧
      (run ⟨false, false, false, false⟩ clear).cs1 = false) ∧
     (selectionsPaired setSineWave = true ∧ disableAfterDelay setSineWave = true ∧
      (run ⟨false, false, false, false⟩ setSineWave).cs0 = false ∧
      (run ⟨false, false, false, false⟩ setSineWave).cs1 = false) ∧
     (selectionsPaired setTriangleWave = true ∧ disableAfterDelay setTriangleWave = true ∧
      (run ⟨false, false, false, false⟩ setTriangleWave).cs0 = false ∧
      (run ⟨false, false, false, false⟩ setTriangleWave).cs1 = false) ∧
     (selectionsPaired start = true ∧ disableAfterDelay start = true ∧
      (run ⟨false, false, false, false⟩ start).cs0 = false ∧
      (run ⟨false, false, false, false⟩ start).cs1 = false) ∧
     (selectionsPaired stop = true ∧ disableAfterDelay stop = true ∧
      (run ⟨false, false, false, false⟩ stop).cs0 = false ∧
      (run ⟨false, false, false, false⟩ stop).cs1 = false)) :=
  ⟨rfl, rfl, C8_chip_select_pairing 2 3 0 "" ⟨false, false, false, false⟩ rfl rfl⟩

/-- Witness for C10 at frequency 100 kHz. -/
theorem C10_last_gpio_writes_low_witness :
    (0 : ℚ) ≤ 100 ∧ (100 : ℚ) ≤ 25000 ∧
    ((lastGpio2 (setFrequency 100 0 "").events = some false ∧
      lastGpio3 (setFrequency 100 0 "").events = some false ∧
      ∀ d : DevState, (run d (setFrequency 100 0 "").events).gpio2 = false ∧
        (run d (setFrequency 100 0 "").events).gpio3 = false) ∧
     (lastGpio2 setSineWave = some false ∧ lastGpio3 setSineWave = some false ∧
      ∀ d : DevState, (run d setSineWave).gpio2 = false ∧ (run d setSineWave).gpio3 = false) ∧
     (lastGpio2 setTriangleWave = some false ∧ lastGpio3 setTriangleWave = some false ∧
      ∀ d : DevState, (run d setTriangleWave).gpio2 = false ∧
        (run d setTriangleWave).gpio3 = false) ∧
     (lastGpio2 clear = some false ∧ lastGpio3 clear = some false ∧
      ∀ d : DevState, (run d clear).gpio2 = false ∧ (run d clear).gpio3 = false) ∧
     (lastGpio2 start = some false ∧ lastGpio3 start = some false ∧
      ∀ d : DevState, (run d start).gpio2 = false ∧ (run d start).gpio3 = false) ∧
     (lastGpio2 stop = some false ∧ lastGpio3 stop = some false ∧
      ∀ d : DevState, (run d stop).gpio2 = false ∧ (run d stop).gpio3 = false)) :=
  ⟨by norm_num, by norm_num,
   C10_last_gpio_writes_low 100 0 "" (by norm_num) (by norm_num)⟩

/-- Claim C5: `hardwareRevision` maps major release values 2..27 to the
letters `'A'`..`'Z'` (major release values 1 and 0 produce no letter), and
the minor number is appended only if it is non-zero or if no major letter
was produced; the four spec examples hold. -/
theorem C5_hardwareRevision_format :
    (∀ majrel minrel : Nat, 2 ≤ majrel → majrel ≤ 27 →
      hardwareRevision ⟨majrel, minrel⟩ =
        String.singleton (Char.ofNat (majrel + 63)) ++
        (if minrel ≠ 0 then toString minrel else "")) ∧
    (∀ minrel : Nat, hardwareRevision ⟨0, minrel⟩ =
      (if minrel ≠ 0 then toString minrel else "")) ∧
    (∀ minrel : Nat, hardwareRevision ⟨1, minrel⟩ = toString minrel) ∧
    hardwareRevision ⟨2, 0⟩ = "A" ∧ hardwareRevision ⟨1, 3⟩ = "3" ∧
    hardwareRevision ⟨3, 1⟩ = "B1" ∧ hardwareRevision ⟨0, 0⟩ = "" := by
  refine ⟨?_, ?_, ?_, by decide, by decide, by decide, by decide⟩
  · intro majrel minrel h2 h27
    have hm1 : majrel ≠ 1 := by omega
    simp only [hardwareRevision]
    rw [if_pos (show 1 < majrel ∧ majrel ≤ 27 by omega)]
    rw [show majrel + 65 - 2 = majrel + 63 by omega]
    simp only [hm1, false_or]
  · intro minrel
    simp only [hardwareRevision]
    rw [if_neg (show ¬(1 < 0 ∧ 0 ≤ 27) by omega)]
    simp only [show (0 ≠ 1) from by omega, false_or]
    rfl
  · intro minrel
    simp only [hardwareRevision]
    rw [if_neg (show ¬(1 < 1 ∧ 1 ≤ 27) by omega)]
    simp only [true_or, if_true]
    rfl

/-- Witness for C5 at major release 5, minor release 7. -/
theorem C5_hardwareRevision_format_witness :
    2 ≤ 5 ∧ (5 : Nat) ≤ 27 ∧
    hardwareRevision ⟨5, 7⟩ =
      String.singleton (Char.ofNat (5 + 63)) ++
      (if (7 : Nat) ≠ 0 then toString (7 : Nat) else "") :=
  ⟨by decide, by decide, C5_hardwareRevision_format.1 5 7 (by decide) (by decide)⟩

/-- Claim C4: for every amplitude outside [0, 5] and every frequency outside
[0, 25000], `setAmplitude` respectively `setFrequency` increments the error
counter by one, appends a descriptive message to the error string, and
performs no device I/O at all (the event list is empty). -/
theorem C4_out_of_range_no_op (v f : ℚ) (e : ℤ) (s : String)
    (hv : v < 0 ∨ 5 < v) (hf : f < 0 ∨ 25000 < f) :
    setAmplitude v e s =
      ⟨e + 1, s ++ "In setAmplitude(): Amplitude must be between 0 and 5.\n", []⟩ ∧
    setFrequency f e s =
      ⟨e + 1, s ++ "In setFrequency(): Frequency must be between 0 and 25000.\n", []⟩ := by
  constructor
  · rw [setAmplitude, if_pos]
    exact hv
  · rw [setFrequency, if_pos]
    exact hf

/-- Witness for C4 at amplitude -0.1 and frequency 25001. -/
theorem C4_out_of_range_no_op_witness :
    ((-1/10 : ℚ) < 0 ∨ (5 : ℚ) < -1/10) ∧ ((25001 : ℚ) < 0 ∨ (25000 : ℚ) < 25001) ∧
    setAmplitude (-1/10) 0 "" =
      ⟨0 + 1, "" ++ "In setAmplitude(): Amplitude must be between 0 and 5.\n", []⟩ ∧
    setFrequency 25001 0 "" =
      ⟨0 + 1, "" ++ "In setFrequency(): Frequency must be between 0 and 25000.\n", []⟩ := by
  have h := C4_out_of_range_no_op (-1/10) 25001 0 ""
    (Or.inl (by norm_num)) (Or.inr (by norm_num))
  exact ⟨Or.inl (by norm_num), Or.inr (by norm_num), h.1, h.2⟩

/-- Claim C3: for every amplitude v in [0, 5] Vpp, `setAmplitude` writes a
single-byte SPI frame whose value is the amplitude code
`round-half-up(v * 255 / 5)`, which always fits in a byte (so the clamp to
a byte is the identity); in particular v = 2.5 yields code 128. -/
theorem C3_setAmplitude_code (v : ℚ) (e : ℤ) (s : String)
    (h0 : 0 ≤ v) (h1 : v ≤ 5) :
    (setAmplitude v e s).events =
      [.selectCS 1,
       .spiWrite [(amplitudeCode v).toNat] EPOUT,
       .usleep 100,
       .disableCS 1] ∧
    amplitudeCode v = ⌊v * 255 / 5 + 1/2⌋ ∧
    0 ≤ amplitudeCode v ∧ amplitudeCode v ≤ 255 ∧
    amplitudeCode (5/2) = 128 := by
  rw [setAmplitude_events_of_valid v e s h0 h1]
  refine ⟨rfl, rfl, amplitudeCode_nonneg v h0, amplitudeCode_le v h1, ?_⟩
  rw [amplitudeCode, AQUANTUM, AMPLITUDE_MAX]
  rw [show (5/2 : ℚ) * 255 / 5 + 1/2 = 128 by norm_num]
  exact Int.floor_intCast 128

/-- Claim C1: for every frequency f in [0, 25000] kHz, `setFrequency`
computes the frequency code round-half-up(f * 2^24 / 50000) as a 24-bit
value, writes the frame containing it over SPI, and packs its low 12 bits
into the Fstart low-register byte pair (first byte 0xC0 OR bits 11:8,
second byte bits 7:0) and its high 12 bits into the Fstart high-register
byte pair (first byte 0xD0 OR bits 23:20, second byte bits 19:12); in
particular f = 25000 is accepted and yields code 8388608 = 0x800000, whose
low-register pair is 0xC0 0x00 and whose high-register pair is 0xD8 0x00. -/
theorem C1_setFrequency_code_packing (f : ℚ) (e : ℤ) (s : String)
    (h0 : 0 ≤ f) (h1 : f ≤ 25000) :
    frequencyCode f = ⌊f * 2 ^ 24 / 50000 + 1/2⌋ ∧
    0 ≤ frequencyCode f ∧ frequencyCode f < 2 ^ 24 ∧
    Event.spiWrite (setFrequencyFrame f) EPOUT ∈ (setFrequency f e s).events ∧
    setFrequencyFrame f =
      [0x10, 0x00, 0x20, 0x00, 0x30, 0x00, 0x40, 0x00,
       0xc0 ||| (frequencyCode f).toNat % 2 ^ 12 / 2 ^ 8,
       (frequencyCode f).toNat % 2 ^ 12 % 2 ^ 8,
       0xd0 ||| (frequencyCode f).toNat / 2 ^ 12 / 2 ^ 8,
       (frequencyCode f).toNat / 2 ^ 12 % 2 ^ 8] ∧
    frequencyCode 25000 = 8388608 ∧
    setFrequencyFrame 25000 =
      [0x10, 0x00, 0x20, 0x00, 0x30, 0x00, 0x40, 0x00, 0xc0, 0x00, 0xd8, 0x00] := by
  refine ⟨?_, frequencyCode_nonneg f h0, frequencyCode_lt f h1, ?_,
    setFrequencyFrame_packing f h1, frequencyCode_25000, setFrequencyFrame_25000⟩
  · rw [frequencyCode, FQUANTUM, MCLK]
    norm_num
  · rw [setFrequency_events_of_valid f e s h0 h1]
    simp [clearCtrlInterrupt, toggleInterrupt, toggleCtrl]

/-- Witness for C1 at frequency 25000 kHz. -/
theorem C1_setFrequency_code_packing_witness :
    (0 : ℚ) ≤ 25000 ∧ (25000 : ℚ) ≤ 25000 ∧
    (frequencyCode 25000 = ⌊(25000 : ℚ) * 2 ^ 24 / 50000 + 1/2⌋ ∧
     0 ≤ frequencyCode 25000 ∧ frequencyCode 25000 < 2 ^ 24 ∧
     Event.spiWrite (setFrequencyFrame 25000) EPOUT ∈ (setFrequency 25000 0 "").events ∧
     setFrequencyFrame 25000 =
       [0x10, 0x00, 0x20, 0x00, 0x30, 0x00, 0x40, 0x00,
        0xc0 ||| (frequencyCode 25000).toNat % 2 ^ 12 / 2 ^ 8,
        (frequencyCode 25000).toNat % 2 ^ 12 % 2 ^ 8,
        0xd0 ||| (frequencyCode 25000).toNat / 2 ^ 12 / 2 ^ 8,
        (frequencyCode 25000).toNat / 2 ^ 12 % 2 ^ 8] ∧
     frequencyCode 25000 = 8388608 ∧
     setFrequencyFrame 25000 =
       [0x10, 0x00, 0x20, 0x00, 0x30, 0x00, 0x40, 0x00, 0xc0, 0x00, 0xd8, 0x00]) :=
  ⟨by norm_num, by norm_num,
   C1_setFrequency_code_packing 25000 0 "" (by norm_num) (by norm_num)⟩

/-- Claim C2 counterexample: the byte sequence that `setFrequency` writes
over SPI is 12 bytes long, not 14, already at frequency 1000 kHz. -/
theorem C2_counterexample_frame_length :
    Event.spiWrite (setFrequencyFrame 1000) EPOUT ∈ (setFrequency 1000 0 "").events ∧
    (setFrequencyFrame 1000).length = 12 ∧ (setFrequencyFrame 1000).length ≠ 14 := by
  refine ⟨?_, rfl, by decide⟩
  rw [setFrequency_events_of_valid 1000 0 "" (by norm_num) (by norm_num)]
  simp [clearCtrlInterrupt, toggleInterrupt, toggleCtrl]

/-- Claim C2 (amended): the byte sequence that `setFrequency` writes over
SPI is 12 bytes long: four 2-byte zero fields (frequency-increment count,
delta-frequency, increment interval) followed by a 2-byte low-order
start-frequency field tagged with the fixed 4-bit prefix 0xC and a 2-byte
high-order start-frequency field tagged with the fixed 4-bit prefix 0xD. -/
theorem C2_frame_structure (f : ℚ) (e : ℤ) (s : String)
    (h0 : 0 ≤ f) (h1 : f ≤ 25000) :
    (setFrequencyFrame f).length = 12 ∧
    setFrequencyFrame f =
      [0x10, 0x00, 0x20, 0x00, 0x30, 0x00, 0x40, 0x00] ++
      [FSTARTLSB ||| (frequencyCode f).toNat % 2 ^ 12 / 2 ^ 8,
       (frequencyCode f).toNat % 2 ^ 12 % 2 ^ 8] ++
      [FSTARTMSB ||| (frequencyCode f).toNat / 2 ^ 12 / 2 ^ 8,
       (frequencyCode f).toNat / 2 ^ 12 % 2 ^ 8] ∧
    Event.spiWrite (setFrequencyFrame f) EPOUT ∈ (setFrequency f e s).events := by
  refine ⟨rfl, ?_, ?_⟩
  · rw [setFrequencyFrame_packing f h1]
    rfl
  · rw [setFrequency_events_of_valid f e s h0 h1]
    simp [clearCtrlInterrupt, toggleInterrupt, toggleCtrl]

/-- Witness for the amended C2 at frequency 0 kHz. -/
theorem C2_frame_structure_witness :
    (0 : ℚ) ≤ 0 ∧ (0 : ℚ) ≤ 25000 ∧
    ((setFrequencyFrame 0).length = 12 ∧
     setFrequencyFrame 0 =
       [0x10, 0x00, 0x20, 0x00, 0x30, 0x00, 0x40, 0x00] ++
       [FSTARTLSB ||| (frequencyCode 0).toNat % 2 ^ 12 / 2 ^ 8,
        (frequencyCode 0).toNat % 2 ^ 12 % 2 ^ 8] ++
       [FSTARTMSB ||| (frequencyCode 0).toNat / 2 ^ 12 / 2 ^ 8,
        (frequencyCode 0).toNat / 2 ^ 12 % 2 ^ 8] ∧
     Event.spiWrite (setFrequencyFrame 0) EPOUT ∈ (setFrequency 0 0 "").events) :=
  ⟨le_refl 0, by norm_num, C2_frame_structure 0 0 "" (le_refl 0) (by norm_num)⟩

/-- Claim C6: for all v in [0, 5], the amplitude-to-code conversion is
monotonic non-decreasing in v and `expectedAmplitude v` lies within half a
quantum (half of 5/255 V) of v; for all f in [0, 25000], the
frequency-to-code conversion is monotonic non-decreasing in f and
`expectedFrequency f` lies within half a quantum (half of 50000/2^24 kHz)
of f. -/
theorem C6_monotone_half_quantum (v w f g : ℚ)
    (hv0 : 0 ≤ v) (hvw : v ≤ w) (hw5 : w ≤ 5)
    (hf0 : 0 ≤ f) (hfg : f ≤ g) (hg : g ≤ 25000) :
    amplitudeCode v ≤ amplitudeCode w ∧
    |expectedAmplitude v - v| ≤ 1/2 * (5/255) ∧
    frequencyCode f ≤ frequencyCode g ∧
    |expectedFrequency f - f| ≤ 1/2 * (50000/16777216) := by
  refine ⟨?_, ?_, ?_, ?_⟩
  · rw [amplitudeCode, amplitudeCode, AQUANTUM, AMPLITUDE_MAX]
    exact Int.floor_le_floor (by linarith)
  · rw [expectedAmplitude, AQUANTUM, AMPLITUDE_MAX,
      show ((cround (v * 255 / 5) : ℤ) : ℚ) * 5 / 255 - v
         = (((cround (v * 255 / 5) : ℤ) : ℚ) - v * 255 / 5) * (5/255) from by ring,
      abs_mul, abs_of_nonneg (show (0:ℚ) ≤ 5/255 by norm_num)]
    exact mul_le_mul_of_nonneg_right (abs_cround_sub_le _) (by norm_num)
  · rw [frequencyCode, frequencyCode, FQUANTUM, MCLK]
    exact Int.floor_le_floor (by linarith)
  · rw [expectedFrequency, FQUANTUM, MCLK,
      show ((cround (f * 16777216 / 50000) : ℤ) : ℚ) * 50000 / 16777216 - f
         = (((cround (f * 16777216 / 50000) : ℤ) : ℚ) - f * 16777216 / 50000)
             * (50000/16777216) from by ring,
      abs_mul, abs_of_nonneg (show (0:ℚ) ≤ 50000/16777216 by norm_num)]
    exact mul_le_mul_of_nonneg_right (abs_cround_sub_le _) (by norm_num)

/-- Witness for C6 at amplitudes 1 and 3 Vpp and frequencies 500 and 600
kHz. -/
theorem C6_monotone_half_quantum_witness :
    (0 : ℚ) ≤ 1 ∧ (1 : ℚ) ≤ 3 ∧ (3 : ℚ) ≤ 5 ∧
    (0 : ℚ) ≤ 500 ∧ (500 : ℚ) ≤ 600 ∧ (600 : ℚ) ≤ 25000 ∧
    (amplitudeCode 1 ≤ amplitudeCode 3 ∧
     |expectedAmplitude 1 - 1| ≤ 1/2 * (5/255) ∧
     frequencyCode 500 ≤ frequencyCode 600 ∧
     |expectedFrequency 500 - 500| ≤ 1/2 * (50000/16777216)) :=
  ⟨by norm_num, by norm_num, by norm_num, by norm_num, by norm_num, by norm_num,
   C6_monotone_half_quantum 1 3 500 600 (by norm_num) (by norm_num) (by norm_num)
     (by norm_num) (by norm_num) (by norm_num)⟩

/-- Witness for C3 at amplitude 2.5 Vpp. -/
theorem C3_setAmplitude_code_witness :
    (0 : ℚ) ≤ 5/2 ∧ (5/2 : ℚ) ≤ 5 ∧
    ((setAmplitude (5/2) 0 "").events =
      [.selectCS 1,
       .spiWrite [(amplitudeCode (5/2)).toNat] EPOUT,
       .usleep 100,
       .disableCS 1] ∧
     amplitudeCode (5/2) = ⌊(5/2 : ℚ) * 255 / 5 + 1/2⌋ ∧
     0 ≤ amplitudeCode (5/2) ∧ amplitudeCode (5/2) ≤ 255 ∧
     amplitudeCode (5/2) = 128) :=
  ⟨by norm_num, by norm_num, C3_setAmplitude_code (5/2) 0 "" (by norm_num) (by norm_num)⟩

end GF1
